import Mathlib

/-!
Shallow embedding of the job-lifecycle core of the Distributed Mini Data
Harmonizer (python-api): the upload admission gate (utils/file_utils.py),
the job record (models/job.py), the create/dispatch/read operations
(endpoints/jobs.py) and the configuration defaults (config.py).

Python strings are modelled as Lean `String`s; the character-level Python
operations used by the source (`str.split`, `str.lower`, substring `in`)
are modelled explicitly on the underlying character lists.  Wall-clock
timestamps (`created_at`, `updated_at`) are managed by the ORM and no claim
in scope depends on their values, so the record does not carry them;
`completed_at` is carried as an optional abstract timestamp.
-/

namespace Harmonizer

/-- config.py `Settings.UPLOAD_DIR` default. -/
def UPLOAD_DIR : String := "/app/uploads"

/-- config.py `Settings.MAX_UPLOAD_SIZE` default (100 MB in bytes). -/
def MAX_UPLOAD_SIZE : Nat := 104857600

/-- config.py `Settings.ALLOWED_EXTENSIONS` default. -/
def ALLOWED_EXTENSIONS : List String := ["csv", "json"]

/-- Python `str.lower()`, character-wise (filenames are ASCII here). -/
def pyLower (s : String) : String := String.mk (s.data.map Char.toLower)

/-- Python `str.split(sep)` for a one-character separator, on the character
list.  Always returns at least one segment (`"".split(".") == [""]`). -/
def pySplit (sep : Char) : List Char → List (List Char)
  | [] => [[]]
  | c :: cs =>
    match pySplit sep cs with
    | [] => [[]]
    | h :: t => if c = sep then [] :: h :: t else (c :: h) :: t

/-- Python substring membership `sub in s`, on character lists: `sub` is a
prefix of some suffix of the list. -/
def listContainsSub (sub : List Char) : List Char → Bool
  | [] => sub.isEmpty
  | c :: t => sub.isPrefixOf (c :: t) || listContainsSub sub t

/-- Python substring membership `sub in s` for strings. -/
def pyContains (sub s : String) : Bool := listContainsSub sub.data s.data

/-- Python `filename.split(sep)[-1]`, the source's way of taking the last
dot-separated (or slash-separated) segment. -/
def lastSegment (sep : Char) (s : String) : String :=
  String.mk ((pySplit sep s.data).getLastD [])

/-- os.path.basename: the part of the path after the last separator. -/
def basename (s : String) : String := lastSegment '/' s

/-- file_utils.validate_file_extension: lowercase the segment after the last
dot (the whole name when there is no dot) and test membership in the
allowed-extension list. -/
def validate_file_extension (filename : String) : Bool :=
  ALLOWED_EXTENSIONS.contains (pyLower (lastSegment '.' filename))

/-- file_utils.validate_file_size: the running byte count may not exceed the
configured ceiling. -/
def validate_file_size (file_size : Nat) : Bool :=
  file_size ≤ MAX_UPLOAD_SIZE

/-- file_utils.get_file_type: the lowercased segment after the last dot. -/
def get_file_type (filename : String) : String :=
  pyLower (lastSegment '.' filename)

/-- file_utils.format_file_size: pick the unit by repeated division by 1024.
The source renders a float with two decimals; floating-point rendering is
not modelled (no claim depends on this string's value), only the unit
selection is. -/
def format_file_size (size_bytes : Nat) : String :=
  if size_bytes < 1024 then toString size_bytes ++ " B"
  else if size_bytes / 1024 < 1024 then toString (size_bytes / 1024) ++ " KB"
  else if size_bytes / (1024 * 1024) < 1024 then
    toString (size_bytes / (1024 * 1024)) ++ " MB"
  else toString (size_bytes / (1024 * 1024 * 1024)) ++ " GB"

/-- fastapi.HTTPException as raised by the API: a status code and a detail
message. -/
structure HTTPException where
  status_code : Nat
  detail : String
deriving DecidableEq, Repr

/-- models/job.py `JobStatus`. -/
inductive JobStatus where
  | queued
  | processing
  | completed
  | failed
deriving DecidableEq, Repr

/-- Position of a status along the forward lifecycle
QUEUED → PROCESSING → {COMPLETED, FAILED}. -/
def JobStatus.rank : JobStatus → Nat
  | .queued => 0
  | .processing => 1
  | .completed => 2
  | .failed => 2

/-- models/job.py `Job` (the fields the in-scope operations read or write). -/
structure Job where
  id : String
  status : JobStatus
  input_file : String
  output_file : Option String
  file_type : String
  file_size : String
  harmonization_type : String
  completed_at : Option Nat
  error_message : Option String
deriving DecidableEq, Repr

/-- The write loop of file_utils.save_upload_file: each chunk's length is
added to the running count before the chunk is written; the moment the count
fails validate_file_size the loop aborts (and the caller removes the partial
file).  Returns the final byte count when every chunk passes. -/
def writeChunks : List Nat → Nat → Option Nat
  | [], acc => some acc
  | c :: cs, acc =>
    if validate_file_size (acc + c) then writeChunks cs (acc + c)
    else none

instance {ε α : Type} [DecidableEq ε] [DecidableEq α] : DecidableEq (Except ε α) := fun a b =>
  match a, b with
  | Except.error x, Except.error y =>
    if h : x = y then isTrue (congrArg Except.error h)
    else isFalse fun hc => h (Except.error.inj hc)
  | Except.error _, Except.ok _ => isFalse fun hc => Except.noConfusion hc
  | Except.ok _, Except.error _ => isFalse fun hc => Except.noConfusion hc
  | Except.ok x, Except.ok y =>
    if h : x = y then isTrue (congrArg Except.ok h)
    else isFalse fun hc => h (Except.ok.inj hc)

/-- Outcome of save_upload_file: the returned tuple
(file_path, file_type, size_bytes, human_size) or the raised HTTPException,
together with the file (path, size) left in the upload directory, if any
(`none` when the partial file was removed or nothing was written). -/
structure SaveOutcome where
  result : Except HTTPException (String × String × Nat × String)
  fileOnDisk : Option (String × Nat)
deriving DecidableEq, Repr

/-- file_utils.save_upload_file.  `uniq` stands for the generated uuid4
string; `chunks` are the byte counts of the successive nonempty reads of the
upload stream (the source reads at most 1 MiB at a time). -/
def save_upload_file (uniq filename : String) (chunks : List Nat) : SaveOutcome :=
  if validate_file_extension filename = false then
    { result := Except.error
        ⟨400, "File type not allowed. Allowed types: csv, json"⟩
      fileOnDisk := none }
  else
    let file_type := get_file_type filename
    let file_path := UPLOAD_DIR ++ "/" ++ uniq ++ "." ++ file_type
    match writeChunks chunks 0 with
    | none =>
      { result := Except.error
          ⟨413, "File too large. Maximum size: " ++
                format_file_size MAX_UPLOAD_SIZE⟩
        fileOnDisk := none }
    | some size_bytes =>
      { result := Except.ok (file_path, file_type, size_bytes,
                             format_file_size size_bytes)
        fileOnDisk := some (file_path, size_bytes) }

/-- file_utils.get_harmonization_type_from_filename: keyword search on the
lowercased base name, in source order. -/
def get_harmonization_type_from_filename (filename : String) : String :=
  let b := pyLower (basename filename)
  if pyContains "patient" b then "patients"
  else if pyContains "vital" b then "vitals"
  else if pyContains "medication" b || pyContains "med" b then "medications"
  else if pyContains "lab" b || pyContains "test" b then "lab_results"
  else "generic"

/-- endpoints/jobs.py create_job: admit the upload via save_upload_file, then
create the job record with status QUEUED.  `htForm` is the optional
harmonization_type form field (Python treats both None and the empty string
as absent); `jobId` stands for the generated uuid4 primary key.  Returns the
raised HTTPException or the created record, paired with the file left in the
upload directory. -/
def create_job (uniq jobId filename : String) (htForm : Option String)
    (chunks : List Nat) :
    Except HTTPException Job × Option (String × Nat) :=
  let saved := save_upload_file uniq filename chunks
  match saved.result with
  | Except.error e => (Except.error e, saved.fileOnDisk)
  | Except.ok (file_path, file_type, _size_bytes, human) =>
    let ht :=
      match htForm with
      | none => get_harmonization_type_from_filename filename
      | some h =>
        if h = "" then get_harmonization_type_from_filename filename else h
    (Except.ok
      { id := jobId
        status := JobStatus.queued
        input_file := file_path
        output_file := none
        file_type := file_type
        file_size := human
        harmonization_type := ht
        completed_at := none
        error_message := none },
     saved.fileOnDisk)

/-- The worker's immediate reply to the dispatch POST, or the transport-level
exception the request raised. -/
inductive WorkerReply where
  | response (status_code : Nat) (text : String)
  | transportFailure (msg : String)
deriving DecidableEq, Repr

/-- endpoints/jobs.py process_job_async, on a job present in the store: the
list of successive committed states, in commit order.  The status is first
set to PROCESSING and committed; then, when the worker's reply is not 202
or the request raised, the job is set to FAILED with an error message and
committed again.  A 202 reply leaves the PROCESSING commit as the last. -/
def process_job_async (job : Job) (reply : WorkerReply) : List Job :=
  let j1 := { job with status := JobStatus.processing }
  match reply with
  | WorkerReply.response code text =>
    if code ≠ 202 then
      [j1, { j1 with status := JobStatus.failed
                     error_message := some ("Worker error: " ++ text) }]
    else [j1]
  | WorkerReply.transportFailure msg =>
    [j1, { j1 with status := JobStatus.failed
                   error_message := some ("Error sending job to worker: " ++ msg) }]

/-- The job's persisted state after process_job_async finishes: the last
committed state. -/
def dispatchFinal (job : Job) (reply : WorkerReply) : Job :=
  (process_job_async job reply).getLastD job

/-- A read of the job store, db.query(Job).filter(Job.id == job_id).first():
the record under the id, when present. -/
abbrev JobStore := String → Option Job

/-- endpoints/jobs.py get_job: a pure read; 404 when the id is absent. -/
def get_job (store : JobStore) (job_id : String) : Except HTTPException Job :=
  match store job_id with
  | none => Except.error ⟨404, "Job " ++ job_id ++ " not found"⟩
  | some job => Except.ok job

/-- endpoints/jobs.py get_job_status: a pure read returning the status
projection of the record; 404 when the id is absent. -/
def get_job_status (store : JobStore) (job_id : String) :
    Except HTTPException (String × JobStatus × Option Nat × Option String) :=
  match store job_id with
  | none => Except.error ⟨404, "Job " ++ job_id ++ " not found"⟩
  | some job =>
    Except.ok (job.id, job.status, job.completed_at, job.error_message)

/-- The value of a successful result download: the artifact's bytes and the
response content type (FileResponse over job.output_file). -/
structure ResultDownload where
  content : List Nat
  media_type : String
deriving DecidableEq, Repr

/-- endpoints/jobs.py get_job_result.  `fs` models the results storage as
the bytes at each existing path (os.path.exists p exactly when fs p is not
none; os.path.exists "" is always false in Python, and Python's
`not job.output_file` is true both for NULL and for the empty string, so a
`some ""` output path takes the 404 branch). -/
def get_job_result (store : JobStore) (fs : String → Option (List Nat))
    (job_id : String) : Except HTTPException ResultDownload :=
  match store job_id with
  | none => Except.error ⟨404, "Job " ++ job_id ++ " not found"⟩
  | some job =>
    if job.status ≠ JobStatus.completed then
      Except.error ⟨400, "Job " ++ job_id ++ " is not completed"⟩
    else
      match job.output_file with
      | none => Except.error ⟨404, "Result file for job " ++ job_id ++ " not found"⟩
      | some p =>
        if p = "" then
          Except.error ⟨404, "Result file for job " ++ job_id ++ " not found"⟩
        else
          match fs p with
          | none =>
            Except.error ⟨404, "Result file for job " ++ job_id ++ " not found"⟩
          | some bytes =>
            Except.ok
              { content := bytes
                media_type :=
                  if job.file_type = "csv" then "text/csv"
                  else "application/json" }

/-- A job record as produced by some successful create_job call. -/
def CreatedJob (j : Job) : Prop :=
  ∃ uniq jobId filename htForm chunks fsf,
    create_job uniq jobId filename htForm chunks = (Except.ok j, fsf)

/-- A job state reachable through the in-scope operations: the state written
by create_job, or one of the states committed by the single dispatch that
create_job enqueues for the record (the at-most-one-dispatch guarantee: the
API enqueues process_job_async exactly once, at creation).  The read
endpoints are pure functions of the store and contribute no states. -/
inductive ReachableJob : Job → Prop where
  | created : ∀ j, CreatedJob j → ReachableJob j
  | dispatched : ∀ j0 reply j, CreatedJob j0 →
      j ∈ process_job_async j0 reply → ReachableJob j

/-- Substring occurrence stated abstractly (a contiguous infix of the
character list), used to phrase C7 independently of the search loop. -/
def OccursIn (sub s : String) : Prop := sub.data <:+: s.data

instance (sub s : String) : Decidable (OccursIn sub s) :=
  inferInstanceAs (Decidable (sub.data <:+: s.data))

/-- The harmonization-type mapping as the claim words it, with substring
containment expressed abstractly; compared against the source's
get_harmonization_type_from_filename. -/
def harmonizationTypeClaim (filename : String) : String :=
  let b := pyLower (basename filename)
  if OccursIn "patient" b then "patients"
  else if OccursIn "vital" b then "vitals"
  else if OccursIn "medication" b ∨ OccursIn "med" b then "medications"
  else if OccursIn "lab" b ∨ OccursIn "test" b then "lab_results"
  else "generic"

/-- The extension as the claim words it: the segment after the last `sep`,
or the entire list when `sep` does not occur. -/
def afterLast (sep : Char) : List Char → List Char
  | [] => []
  | c :: cs =>
    if sep ∈ cs then afterLast sep cs
    else if c = sep then cs
    else c :: cs

/-- The record create_job writes for the upload "patients.csv" streamed as a
single 10-byte chunk, with generated names "u5" (file) and "id5" (job). -/
def sampleCreatedJob : Job :=
  { id := "id5"
    status := JobStatus.queued
    input_file := "/app/uploads/u5.csv"
    output_file := none
    file_type := "csv"
    file_size := "10 B"
    harmonization_type := "patients"
    completed_at := none
    error_message := none }

/-- The FAILED state the dispatcher commits for the sample job on a refused
connection. -/
def sampleFailedJob : Job :=
  { sampleCreatedJob with
      status := JobStatus.failed
      error_message := some "Error sending job to worker: connection refused" }

/-- A job record already in the COMPLETED terminal state. -/
def completedJob : Job :=
  { id := "done-1"
    status := JobStatus.completed
    input_file := "/app/uploads/a.csv"
    output_file := some "/app/results/a.csv"
    file_type := "csv"
    file_size := "1 B"
    harmonization_type := "generic"
    completed_at := some 5
    error_message := none }

/-- A store holding the sample (still QUEUED) job under id "j6". -/
def queuedStore : JobStore :=
  fun id => if id = "j6" then some sampleCreatedJob else none

/-! ## Helper lemmas -/

/-- The Python substring search agrees with abstract infix occurrence. -/
theorem listContainsSub_iff (sub l : List Char) :
    listContainsSub sub l = true ↔ sub <:+: l := by
  induction l with
  | nil =>
    simp [listContainsSub, List.isEmpty_iff]
  | cons c t ih =>
    simp only [listContainsSub, Bool.or_eq_true, List.isPrefixOf_iff_prefix, ih,
      List.infix_cons_iff]

/-- The Python substring search as a decision procedure for OccursIn. -/
theorem pyContains_eq_decide (sub s : String) :
    pyContains sub s = decide (OccursIn sub s) := by
  by_cases h : OccursIn sub s
  · have hb : pyContains sub s = true := (listContainsSub_iff sub.data s.data).mpr h
    simp [hb, h]
  · have hb : pyContains sub s ≠ true :=
      fun hc => h ((listContainsSub_iff sub.data s.data).mp hc)
    simp [Bool.not_eq_true] at hb
    simp [hb, h]

/-- Appending to a nonempty string never yields the empty string. -/
theorem append_left_ne_empty (a b : String) (ha : a.length ≠ 0) : a ++ b ≠ "" := by
  intro h
  have h2 := congrArg String.length h
  rw [String.length_append] at h2
  have h4 : ("" : String).length = 0 := by decide
  rw [h4] at h2
  omega

/-- The write loop aborts exactly when the total byte count exceeds the
ceiling (prefix sums of the chunk counts are monotone, so some running count
exceeds the ceiling exactly when the total does). -/
theorem writeChunks_eq_none_iff (chunks : List Nat) (acc : Nat)
    (hacc : acc ≤ MAX_UPLOAD_SIZE) :
    writeChunks chunks acc = none ↔ MAX_UPLOAD_SIZE < acc + chunks.sum := by
  induction chunks generalizing acc with
  | nil =>
    simp [writeChunks]
    omega
  | cons c cs ih =>
    by_cases h : validate_file_size (acc + c)
    · have hle : acc + c ≤ MAX_UPLOAD_SIZE := by
        simpa [validate_file_size] using h
      rw [writeChunks, if_pos h, ih (acc + c) hle]
      simp [List.sum_cons]
      omega
    · have hlt : MAX_UPLOAD_SIZE < acc + c := by
        simp [validate_file_size] at h
        omega
      rw [writeChunks, if_neg h]
      simp [List.sum_cons]
      omega

/-- Fields of a freshly created job record: status QUEUED, no error message,
no completion timestamp, no output file. -/
theorem created_job_fields {j : Job} (h : CreatedJob j) :
    j.status = JobStatus.queued ∧ j.error_message = none ∧
    j.completed_at = none ∧ j.output_file = none := by
  obtain ⟨uniq, jobId, filename, htForm, chunks, fsf, hc⟩ := h
  unfold create_job at hc
  dsimp only at hc
  rcases hsr : (save_upload_file uniq filename chunks).result with e | ⟨fp, ft, nb, hu⟩ <;>
    rw [hsr] at hc <;> dsimp only at hc
  · simp at hc
  · rw [Prod.mk.injEq] at hc
    obtain ⟨h1, -⟩ := hc
    rw [Except.ok.injEq] at h1
    subst h1
    exact ⟨rfl, rfl, rfl, rfl⟩

/-- Every state committed by the dispatcher keeps the job's completed_at and
its identifying fields; the status is PROCESSING or FAILED, and the error
message is unchanged on the PROCESSING commit. -/
theorem mem_process_job_async {j0 j : Job} {reply : WorkerReply}
    (h : j ∈ process_job_async j0 reply) :
    j.completed_at = j0.completed_at ∧
    (j = { j0 with status := JobStatus.processing } ∨
     (j.status = JobStatus.failed ∧
      ∃ m, j.error_message = some m ∧ m ≠ "")) := by
  cases reply with
  | response code text =>
    by_cases h202 : code = 202
    · simp [process_job_async, h202] at h
      subst h
      exact ⟨rfl, Or.inl rfl⟩
    · simp [process_job_async, h202] at h
      rcases h with h | h
      · subst h; exact ⟨rfl, Or.inl rfl⟩
      · subst h
        refine ⟨rfl, Or.inr ⟨rfl, "Worker error: " ++ text, rfl, ?_⟩⟩
        exact append_left_ne_empty _ _ (by decide)
  | transportFailure msg =>
    simp [process_job_async] at h
    rcases h with h | h
    · subst h; exact ⟨rfl, Or.inl rfl⟩
    · subst h
      refine ⟨rfl, Or.inr ⟨rfl, "Error sending job to worker: " ++ msg, rfl, ?_⟩⟩
      exact append_left_ne_empty _ _ (by decide)

/-- Splitting never produces an empty list of segments. -/
theorem pySplit_ne_nil (sep : Char) (l : List Char) : pySplit sep l ≠ [] := by
  cases l with
  | nil => simp [pySplit]
  | cons c cs =>
    rw [pySplit]
    rcases hp : pySplit sep cs with _ | ⟨hd, tl⟩
    · simp
    · by_cases hc : c = sep <;> simp [hc]

/-- Splitting on an absent separator keeps the list whole. -/
theorem pySplit_of_not_mem {sep : Char} {l : List Char} (h : sep ∉ l) :
    pySplit sep l = [l] := by
  induction l with
  | nil => rfl
  | cons c cs ih =>
    have hc : c ≠ sep := fun hh => h (hh ▸ List.mem_cons_self c cs)
    have hcs : sep ∉ cs := fun hh => h (List.mem_cons_of_mem c hh)
    rw [pySplit, ih hcs]
    simp [hc]

/-- Splitting on a present separator yields at least two segments. -/
theorem two_le_pySplit_length {sep : Char} {l : List Char} (h : sep ∈ l) :
    2 ≤ (pySplit sep l).length := by
  induction l with
  | nil => simp at h
  | cons c cs ih =>
    rw [pySplit]
    rcases hp : pySplit sep cs with _ | ⟨hd, tl⟩
    · exact absurd hp (pySplit_ne_nil sep cs)
    · by_cases hc : c = sep
      · simp [hc]
      · have hcs : sep ∈ cs := by
          rcases List.mem_cons.mp h with h1 | h1
          · exact absurd h1.symm hc
          · exact h1
        have h2 := ih hcs
        rw [hp] at h2
        simp only [if_neg hc, List.length_cons] at h2 ⊢
        simpa using h2

/-- On a separator-free list, afterLast keeps the list whole. -/
theorem afterLast_of_not_mem {sep : Char} {l : List Char} (h : sep ∉ l) :
    afterLast sep l = l := by
  cases l with
  | nil => rfl
  | cons c cs =>
    have hc : c ≠ sep := fun hh => h (hh ▸ List.mem_cons_self c cs)
    have hcs : sep ∉ cs := fun hh => h (List.mem_cons_of_mem c hh)
    rw [afterLast, if_neg hcs, if_neg hc]

/-- The source's `split(sep)[-1]` computes the segment after the last
separator (the whole list when the separator is absent). -/
theorem pySplit_getLastD (sep : Char) (l : List Char) :
    (pySplit sep l).getLastD [] = afterLast sep l := by
  induction l with
  | nil => rfl
  | cons c cs ih =>
    rw [pySplit, afterLast]
    rcases hp : pySplit sep cs with _ | ⟨hd, tl⟩
    · exact absurd hp (pySplit_ne_nil sep cs)
    · rw [hp] at ih
      dsimp only
      by_cases hc : c = sep
      · rw [if_pos hc]
        by_cases hm : sep ∈ cs
        · rw [if_pos hm, List.getLastD_cons]
          exact ih
        · rw [if_neg hm, if_pos hc, List.getLastD_cons]
          rw [afterLast_of_not_mem hm] at ih
          exact ih
      · rw [if_neg hc]
        by_cases hm : sep ∈ cs
        · rw [if_pos hm]
          have hlen := two_le_pySplit_length hm
          rw [hp] at hlen
          cases tl with
          | nil => simp at hlen
          | cons y ys =>
            rw [List.getLastD_cons, List.getLastD_cons]
            rw [List.getLastD_cons, List.getLastD_cons] at ih
            exact ih
        · have h1 := pySplit_of_not_mem hm
          rw [hp] at h1
          obtain ⟨h2, h3⟩ := List.cons.inj h1
          subst h2; subst h3
          rw [if_neg hm, if_neg hc, List.getLastD_cons, List.getLastD_nil]

/-- The source's last-dot-segment extraction agrees with the claim's wording:
the segment after the last separator, or the whole name when there is none. -/
theorem lastSegment_eq_afterLast (sep : Char) (s : String) :
    lastSegment sep s = String.mk (afterLast sep s.data) := by
  rw [lastSegment, pySplit_getLastD]

/-- Distinct generated names give distinct stored upload paths (the fixed
directory prefix and the extension suffix cancel). -/
theorem uploadPath_inj {u1 u2 ext : String}
    (h : UPLOAD_DIR ++ "/" ++ u1 ++ "." ++ ext =
         UPLOAD_DIR ++ "/" ++ u2 ++ "." ++ ext) :
    u1 = u2 := by
  have h2 := congrArg String.data h
  simp only [String.data_append, List.append_assoc] at h2
  have h3 := List.append_cancel_left h2
  have h4 := List.append_cancel_left h3
  have h5 := List.append_cancel_right h4
  cases u1; cases u2
  exact congrArg String.mk h5

/-- The sample record is exactly what create_job returns for that input. -/
theorem sampleCreatedJob_spec :
    create_job "u5" "id5" "patients.csv" none [10] =
      (Except.ok sampleCreatedJob, some ("/app/uploads/u5.csv", 10)) := by
  decide

/-- The sample record is a created job. -/
theorem sampleCreated : CreatedJob sampleCreatedJob :=
  ⟨"u5", "id5", "patients.csv", none, [10], some ("/app/uploads/u5.csv", 10),
    sampleCreatedJob_spec⟩

/-! ## Claims -/

/-- C1: for every job record produced by create_job and any worker reply,
the sequence of statuses the record takes — QUEUED at creation followed by
the statuses of the dispatcher's successive commits — is a prefix of
QUEUED → PROCESSING → COMPLETED or of QUEUED → PROCESSING → FAILED, so no
in-scope operation ever moves the status backward (the read endpoints
get_job, get_job_status and get_job_result are pure functions of the store
and commit no state at all). -/
theorem c1_status_monotone (uniq jobId filename : String) (htForm : Option String)
    (chunks : List Nat) (j : Job) (fsf : Option (String × Nat))
    (reply : WorkerReply)
    (hc : create_job uniq jobId filename htForm chunks = (Except.ok j, fsf)) :
    (j.status :: (process_job_async j reply).map Job.status)
        <+: [JobStatus.queued, JobStatus.processing, JobStatus.completed] ∨
    (j.status :: (process_job_async j reply).map Job.status)
        <+: [JobStatus.queued, JobStatus.processing, JobStatus.failed] := by
  have hq : j.status = JobStatus.queued :=
    (created_job_fields ⟨uniq, jobId, filename, htForm, chunks, fsf, hc⟩).1
  cases reply with
  | response code text =>
    by_cases h202 : code = 202
    · left
      rw [hq]
      simp only [process_job_async, h202, ne_eq, not_true_eq_false, if_false,
        List.map_cons, List.map_nil]
      exact ⟨[JobStatus.completed], rfl⟩
    · right
      rw [hq]
      simp only [process_job_async, h202, ne_eq, not_false_eq_true, if_true,
        List.map_cons, List.map_nil]
      exact ⟨[], rfl⟩
  | transportFailure msg =>
    right
    rw [hq]
    simp only [process_job_async, List.map_cons, List.map_nil]
    exact ⟨[], rfl⟩

/-- Witness for C1: the sample created job, dispatched into a 202 reply. -/
theorem c1_witness :
    (sampleCreatedJob.status ::
        (process_job_async sampleCreatedJob (WorkerReply.response 202 "")).map Job.status)
        <+: [JobStatus.queued, JobStatus.processing, JobStatus.completed] ∨
    (sampleCreatedJob.status ::
        (process_job_async sampleCreatedJob (WorkerReply.response 202 "")).map Job.status)
        <+: [JobStatus.queued, JobStatus.processing, JobStatus.failed] :=
  c1_status_monotone "u5" "id5" "patients.csv" none [10] sampleCreatedJob
    (some ("/app/uploads/u5.csv", 10)) (WorkerReply.response 202 "") (by decide)

/-- C2 counterexample: the claim says a job-record update whose new status
regresses fails with InvalidTransition and leaves the record unchanged; but
the code's update path validates nothing — dispatching a COMPLETED job
commits it straight back to PROCESSING, a lower-ranked status, and there is
no failure channel at all. -/
theorem c2_counterexample :
    (process_job_async completedJob (WorkerReply.response 202 "")).head? =
      some { completedJob with status := JobStatus.processing } ∧
    completedJob.status = JobStatus.completed ∧
    JobStatus.rank JobStatus.processing < JobStatus.rank JobStatus.completed :=
  ⟨rfl, rfl, by decide⟩

/-- C2 (amended): no InvalidTransition validation exists — the update is
applied unconditionally: for every job and every reply, the dispatcher's
first committed state is the record with status overwritten to PROCESSING
(whatever the previous status was), and the update never fails. -/
theorem c2_amended_unguarded (job : Job) (reply : WorkerReply) :
    (process_job_async job reply).head? =
      some { job with status := JobStatus.processing } := by
  cases reply with
  | response code text => by_cases h : code = 202 <;> simp [process_job_async, h]
  | transportFailure msg => simp [process_job_async]

/-- C3: an upload whose total byte count exceeds MAX_UPLOAD_SIZE is aborted
by the streamed check with HTTP 413 (the loop checks the running count at
every chunk, and with nonnegative chunk counts some running count exceeds
the ceiling exactly when the total does), the partial file is removed from
the upload directory, and create_job creates no record — it re-raises the
same exception before touching the store. -/
theorem c3_oversize (uniq jobId filename : String) (htForm : Option String)
    (chunks : List Nat) (hv : validate_file_extension filename = true)
    (hbig : MAX_UPLOAD_SIZE < chunks.sum) :
    ∃ e : HTTPException, e.status_code = 413 ∧
      (save_upload_file uniq filename chunks).result = Except.error e ∧
      (save_upload_file uniq filename chunks).fileOnDisk = none ∧
      (create_job uniq jobId filename htForm chunks).1 = Except.error e := by
  have hw : writeChunks chunks 0 = none :=
    (writeChunks_eq_none_iff chunks 0 (Nat.zero_le _)).mpr (by simpa using hbig)
  refine ⟨⟨413, "File too large. Maximum size: " ++ format_file_size MAX_UPLOAD_SIZE⟩,
    rfl, ?_, ?_, ?_⟩
  · simp [save_upload_file, hv, hw]
  · simp [save_upload_file, hv, hw]
  · simp [create_job, save_upload_file, hv, hw]

/-- Witness for C3: a single chunk of 104857601 bytes (one byte over the
100 MB ceiling) named "patients.csv". -/
theorem c3_witness :
    ∃ e : HTTPException, e.status_code = 413 ∧
      (save_upload_file "u3" "patients.csv" [104857601]).result = Except.error e ∧
      (save_upload_file "u3" "patients.csv" [104857601]).fileOnDisk = none ∧
      (create_job "u3" "id3" "patients.csv" none [104857601]).1 = Except.error e :=
  c3_oversize "u3" "id3" "patients.csv" none [104857601] (by decide) (by decide)

/-- C4: dispatching an existing job whose error_message is still unset: a
202 reply leaves the job PROCESSING with error_message unset; any other
status code, or a transport-level exception, leaves the job FAILED with a
non-empty error message, and that FAILED state is among the committed
(persisted) states of the dispatch. -/
theorem c4_dispatch (job : Job) (herr : job.error_message = none) :
    (∀ text,
      dispatchFinal job (WorkerReply.response 202 text) =
          { job with status := JobStatus.processing } ∧
      (dispatchFinal job (WorkerReply.response 202 text)).error_message = none) ∧
    (∀ code text, code ≠ 202 →
      (dispatchFinal job (WorkerReply.response code text)).status = JobStatus.failed ∧
      (∃ m, (dispatchFinal job (WorkerReply.response code text)).error_message = some m ∧
        m ≠ "") ∧
      dispatchFinal job (WorkerReply.response code text) ∈
        process_job_async job (WorkerReply.response code text)) ∧
    (∀ msg,
      (dispatchFinal job (WorkerReply.transportFailure msg)).status = JobStatus.failed ∧
      (∃ m, (dispatchFinal job (WorkerReply.transportFailure msg)).error_message = some m ∧
        m ≠ "") ∧
      dispatchFinal job (WorkerReply.transportFailure msg) ∈
        process_job_async job (WorkerReply.transportFailure msg)) := by
  refine ⟨fun text => ⟨?_, ?_⟩, fun code text hne => ⟨?_, ⟨?_, ?_, ?_⟩, ?_⟩,
    fun msg => ⟨?_, ⟨?_, ?_, ?_⟩, ?_⟩⟩
  · simp [dispatchFinal, process_job_async]
  · simp [dispatchFinal, process_job_async, herr]
  · simp [dispatchFinal, process_job_async, hne]
  · exact "Worker error: " ++ text
  · simp [dispatchFinal, process_job_async, hne]
  · exact append_left_ne_empty _ _ (by decide)
  · simp [dispatchFinal, process_job_async, hne]
  · simp [dispatchFinal, process_job_async]
  · exact "Error sending job to worker: " ++ msg
  · simp [dispatchFinal, process_job_async]
  · exact append_left_ne_empty _ _ (by decide)
  · simp [dispatchFinal, process_job_async]

/-- Witness for C4: dispatching the sample created job into a refused
connection ends FAILED. -/
theorem c4_witness :
    (dispatchFinal sampleCreatedJob
        (WorkerReply.transportFailure "connection refused")).status =
      JobStatus.failed :=
  ((c4_dispatch sampleCreatedJob rfl).2.2 "connection refused").1

/-- C5 counterexample: the claim says completed_at is set on the transition
into FAILED; but the dispatcher's FAILED transition never writes
completed_at — the sample queued job pushed to FAILED by a transport
failure ends with status FAILED and completed_at still unset (the spec's
own Scenario C records exactly this behaviour). -/
theorem c5_counterexample :
    (dispatchFinal sampleCreatedJob
        (WorkerReply.transportFailure "connection refused")).status =
      JobStatus.failed ∧
    (dispatchFinal sampleCreatedJob
        (WorkerReply.transportFailure "connection refused")).completed_at = none :=
  ⟨rfl, rfl⟩

/-- C5 (amended): completed_at is never written by the in-scope operations:
create_job leaves it unset and no dispatcher commit (PROCESSING or FAILED)
sets it, so every reachable in-scope state has completed_at unset; the
COMPLETED-side write belongs to the out-of-scope worker callback. -/
theorem c5_amended_no_completed_at (j : Job) (h : ReachableJob j) :
    j.completed_at = none := by
  induction h with
  | created j hc => exact (created_job_fields hc).2.2.1
  | dispatched j0 reply j hc hm =>
    rw [(mem_process_job_async hm).1]
    exact (created_job_fields hc).2.2.1

/-- Witness for C5 (amended): the sample created job is reachable and has
completed_at unset. -/
theorem c5_witness : sampleCreatedJob.completed_at = none :=
  c5_amended_no_completed_at sampleCreatedJob (ReachableJob.created _ sampleCreated)

/-- C6: get_job_result: an unknown id fails with 404; an existing job whose
status is not COMPLETED fails with 400 (NotReady, not NotFound); a
COMPLETED job whose output_file is unset (NULL, or the Python-falsy empty
string) or missing from storage fails with 404; otherwise it returns the
artifact's bytes with content type text/csv when file_type is "csv" and
application/json otherwise. -/
theorem c6_get_result (store : JobStore) (fs : String → Option (List Nat))
    (job_id : String) :
    (store job_id = none →
      get_job_result store fs job_id =
        Except.error ⟨404, "Job " ++ job_id ++ " not found"⟩) ∧
    (∀ job, store job_id = some job → job.status ≠ JobStatus.completed →
      get_job_result store fs job_id =
        Except.error ⟨400, "Job " ++ job_id ++ " is not completed"⟩) ∧
    (∀ job, store job_id = some job → job.status = JobStatus.completed →
      (job.output_file = none ∨ job.output_file = some "" ∨
        (∃ p, job.output_file = some p ∧ fs p = none)) →
      get_job_result store fs job_id =
        Except.error ⟨404, "Result file for job " ++ job_id ++ " not found"⟩) ∧
    (∀ job p bytes, store job_id = some job → job.status = JobStatus.completed →
      job.output_file = some p → p ≠ "" → fs p = some bytes →
      get_job_result store fs job_id =
        Except.ok { content := bytes
                    media_type := if job.file_type = "csv" then "text/csv"
                                  else "application/json" }) := by
  refine ⟨fun habs => ?_, fun job hst hnc => ?_, fun job hst hcomp hmiss => ?_,
    fun job p bytes hst hcomp hout hpne hfs => ?_⟩
  · simp [get_job_result, habs]
  · simp [get_job_result, hst, hnc]
  · rcases hmiss with hnone | hempty | ⟨p, hp, hf⟩
    · simp [get_job_result, hst, hcomp, hnone]
    · simp [get_job_result, hst, hcomp, hempty]
    · by_cases hpe : p = ""
      · simp [get_job_result, hst, hcomp, hp, hpe]
      · simp [get_job_result, hst, hcomp, hp, hpe, hf]
  · simp [get_job_result, hst, hcomp, hout, hpne, hfs]

/-- Witness for C6 (Scenario E): requesting the result of the still-QUEUED
sample job yields 400 (not ready), not 404. -/
theorem c6_witness :
    get_job_result queuedStore (fun _ => none) "j6" =
      Except.error ⟨400, "Job " ++ "j6" ++ " is not completed"⟩ :=
  (c6_get_result queuedStore (fun _ => none) "j6").2.1 sampleCreatedJob
    (by decide) (by decide)

/-- C7: for every filename, the source's inference equals the claim's
description — lowercase the base name, then: contains "patient" →
"patients"; else "vital" → "vitals"; else "medication" or "med" →
"medications"; else "lab" or "test" → "lab_results"; else "generic" — and
uploading "patients.csv" with no explicit harmonization_type creates a
QUEUED job with harmonization_type "patients". -/
theorem c7_harmonization :
    (∀ filename, get_harmonization_type_from_filename filename =
      harmonizationTypeClaim filename) ∧
    (∃ j, (create_job "u7" "id7" "patients.csv" none [51200]).1 = Except.ok j ∧
      j.harmonization_type = "patients" ∧ j.status = JobStatus.queued) := by
  constructor
  · intro filename
    rw [get_harmonization_type_from_filename, harmonizationTypeClaim]
    simp only [pyContains_eq_decide, Bool.or_eq_true, decide_eq_true_eq]
  · refine ⟨{ id := "id7", status := JobStatus.queued,
              input_file := "/app/uploads/u7.csv", output_file := none,
              file_type := "csv", file_size := "50 KB",
              harmonization_type := "patients", completed_at := none,
              error_message := none }, by decide, rfl, rfl⟩

/-- C8: in every job state reachable through the in-scope operations
(create_job followed by the single dispatch it enqueues), error_message is
non-null exactly when status is FAILED: creation leaves it NULL at QUEUED,
the PROCESSING commit keeps it NULL, and both FAILED commits set it. -/
theorem c8_error_iff_failed (j : Job) (h : ReachableJob j) :
    j.error_message ≠ none ↔ j.status = JobStatus.failed := by
  induction h with
  | created j hc =>
    obtain ⟨hs, he, -, -⟩ := created_job_fields hc
    rw [hs, he]
    simp
  | dispatched j0 reply j hc hm =>
    obtain ⟨-, he0, -, -⟩ := created_job_fields hc
    rcases (mem_process_job_async hm).2 with h1 | ⟨hs, m, hmsg, -⟩
    · subst h1
      simp [he0]
    · rw [hs, hmsg]
      simp

/-- Witness for C8: the FAILED state the dispatch commits for the sample
job satisfies the equivalence. -/
theorem c8_witness :
    sampleFailedJob.error_message ≠ none ↔
      sampleFailedJob.status = JobStatus.failed :=
  c8_error_iff_failed sampleFailedJob
    (ReachableJob.dispatched sampleCreatedJob
      (WorkerReply.transportFailure "connection refused") sampleFailedJob
      sampleCreated (by decide))

/-- C9 counterexample: the claim says the client-supplied base name appears
nowhere in the stored path; but the admissible upload named exactly "csv"
(dotless, and in the allowed-extension set) has its entire base name occur
in the stored path, because the extension — which the source derives from
the client name — is that whole name. -/
theorem c9_counterexample :
    validate_file_extension "csv" = true ∧
    (save_upload_file "11111111-2222-4333-8444-555555555555" "csv" [10]).result =
      Except.ok ("/app/uploads/11111111-2222-4333-8444-555555555555.csv", "csv",
                 10, format_file_size 10) ∧
    pyContains (basename "csv")
      "/app/uploads/11111111-2222-4333-8444-555555555555.csv" = true :=
  ⟨by decide, by decide, by decide⟩

/-- C9 (amended): for every admitted upload, the stored path is the upload
directory joined with the freshly generated name plus a dot and the file's
lowercased extension — the client-supplied name contributes nothing beyond
the extension — and two admissions with distinct generated names yield
distinct stored paths. -/
theorem c9_amended_paths (uniq1 uniq2 filename : String)
    (chunks1 chunks2 : List Nat)
    (hv : validate_file_extension filename = true)
    (h1 : writeChunks chunks1 0 ≠ none) (h2 : writeChunks chunks2 0 ≠ none)
    (hne : uniq1 ≠ uniq2) :
    ∃ n1 n2 : Nat,
      (save_upload_file uniq1 filename chunks1).result =
        Except.ok (UPLOAD_DIR ++ "/" ++ uniq1 ++ "." ++ get_file_type filename,
                   get_file_type filename, n1, format_file_size n1) ∧
      (save_upload_file uniq2 filename chunks2).result =
        Except.ok (UPLOAD_DIR ++ "/" ++ uniq2 ++ "." ++ get_file_type filename,
                   get_file_type filename, n2, format_file_size n2) ∧
      UPLOAD_DIR ++ "/" ++ uniq1 ++ "." ++ get_file_type filename ≠
        UPLOAD_DIR ++ "/" ++ uniq2 ++ "." ++ get_file_type filename := by
  rcases hw1 : writeChunks chunks1 0 with _ | n1
  · exact absurd hw1 h1
  rcases hw2 : writeChunks chunks2 0 with _ | n2
  · exact absurd hw2 h2
  refine ⟨n1, n2, ?_, ?_, fun he => hne (uploadPath_inj he)⟩
  · simp [save_upload_file, hv, hw1]
  · simp [save_upload_file, hv, hw2]

/-- Witness for C9 (amended): two 10-byte admissions of "patients.csv"
under the distinct generated names "aaa" and "bbb". -/
theorem c9_witness :
    ∃ n1 n2 : Nat,
      (save_upload_file "aaa" "patients.csv" [10]).result =
        Except.ok (UPLOAD_DIR ++ "/" ++ "aaa" ++ "." ++ get_file_type "patients.csv",
                   get_file_type "patients.csv", n1, format_file_size n1) ∧
      (save_upload_file "bbb" "patients.csv" [10]).result =
        Except.ok (UPLOAD_DIR ++ "/" ++ "bbb" ++ "." ++ get_file_type "patients.csv",
                   get_file_type "patients.csv", n2, format_file_size n2) ∧
      UPLOAD_DIR ++ "/" ++ "aaa" ++ "." ++ get_file_type "patients.csv" ≠
        UPLOAD_DIR ++ "/" ++ "bbb" ++ "." ++ get_file_type "patients.csv" :=
  c9_amended_paths "aaa" "bbb" "patients.csv" [10] [10] (by decide) (by decide)
    (by decide) (by decide)

/-- C10 counterexample: the claim's corollary "any other dotless name is
rejected" fails — "CSV" is a dotless name different from "csv" and "json",
yet it is admitted, because the extracted segment is lowercased before the
allow-list test. -/
theorem c10_counterexample :
    validate_file_extension "CSV" = true ∧
    ('.' ∈ "CSV".data → False) ∧ "CSV" ≠ "csv" ∧ "CSV" ≠ "json" :=
  ⟨by decide, by decide, by decide, by decide⟩

/-- C10 (amended): validate_file_extension takes the segment after the last
dot — the entire filename when it has no dot — lowercases it, and accepts
exactly when the result is in the allowed set; hence a dotless name is
admitted exactly when its lowercasing is "csv" or "json", and every other
dotless name is rejected by save_upload_file with the 400 unsupported-type
error. -/
theorem c10_amended_extension (filename : String) :
    (validate_file_extension filename = true ↔
      ALLOWED_EXTENSIONS.contains
        (pyLower (String.mk (afterLast '.' filename.data))) = true) ∧
    ('.' ∉ filename.data →
      (validate_file_extension filename = true ↔
        (pyLower filename = "csv" ∨ pyLower filename = "json"))) ∧
    ('.' ∉ filename.data → pyLower filename ≠ "csv" → pyLower filename ≠ "json" →
      ∀ uniq chunks,
        (save_upload_file uniq filename chunks).result =
          Except.error ⟨400, "File type not allowed. Allowed types: csv, json"⟩) := by
  have hmk : String.mk filename.data = filename := by cases filename; rfl
  have hkey : validate_file_extension filename =
      ALLOWED_EXTENSIONS.contains
        (pyLower (String.mk (afterLast '.' filename.data))) := by
    rw [validate_file_extension, lastSegment_eq_afterLast]
  refine ⟨by rw [hkey], fun hnd => ?_, fun hnd hc hj uniq chunks => ?_⟩
  · rw [hkey, afterLast_of_not_mem hnd, hmk]
    simp [ALLOWED_EXTENSIONS]
  · have hval : validate_file_extension filename = false := by
      rw [hkey, afterLast_of_not_mem hnd, hmk]
      simp [ALLOWED_EXTENSIONS, hc, hj]
    simp [save_upload_file, hval]

/-- Witness for C10 (amended): the dotless name "README" is rejected with
the 400 unsupported-type error. -/
theorem c10_witness :
    (save_upload_file "u10" "README" [1]).result =
      Except.error ⟨400, "File type not allowed. Allowed types: csv, json"⟩ :=
  (c10_amended_extension "README").2.2 (by decide) (by decide) (by decide)
    "u10" [1]

end Harmonizer
